import Mathlib

/-!
Shallow embedding of the reading-list manager backend.

The embedding follows the implemented backend sources:
  * the book routes (validation chains, ownership checks, public statistics
    and public search handlers),
  * the database layer `utils/db.js` (`createBook`, `getBooksByUserId`,
    `getBookById`, `updateBook`, `deleteBook`, `getPublicBookStats`,
    `searchPublicBooks`, `createUser`, `findUserByUsername`), and
  * the auth routes (`register`, `login`, `checkPasswordStrength`).

Tables are lists of rows; the SQLite autoincrement ids are modelled by
`nextBookId` / `nextUserId` counters, and `CURRENT_TIMESTAMP` by an explicit
`now : Nat` argument.  SQL queries whose `ORDER BY` clause does not determine
the output order completely (ties) are modelled relationally, as predicates
describing every output the query may produce.
-/

namespace ReadingList

/-! ### JavaScript string coercions -/

/-- JavaScript `x || null` for a string-valued field: both an absent field and
the empty string are falsy and collapse to `null`. -/
def jsOrNull : Option String → Option String
  | some s => if s = "" then none else some s
  | none => none

/-- JavaScript `x || d` for a string-valued field with string default `d`. -/
def jsOrDefault (o : Option String) (d : String) : String :=
  match o with
  | some s => if s = "" then d else s
  | none => d

/-- JavaScript `String.prototype.trim()`: strips leading and trailing
whitespace. -/
def jsTrim (s : String) : String :=
  ⟨((s.data.dropWhile Char.isWhitespace).reverse.dropWhile Char.isWhitespace).reverse⟩

/-! ### SQLite `LIKE` (case-insensitive for ASCII, `%`/`_` wildcards) -/

def lowerChars (s : String) : List Char := s.data.map Char.toLower

/-- Core `LIKE` matcher on (already lowercased) character lists.
`%` matches any sequence of characters, `_` matches exactly one.  The `fuel`
argument makes the recursion structural (so terms evaluate by kernel
reduction); every recursive call shrinks the combined length of pattern and
text, so `likeMatch` below always supplies enough fuel. -/
def likeMatchFuel : Nat → List Char → List Char → Bool
  | 0, _, _ => false
  | _ + 1, [], [] => true
  | fuel + 1, '%' :: ps, [] => likeMatchFuel fuel ps []
  | _ + 1, _ :: _, [] => false
  | _ + 1, [], _ :: _ => false
  | fuel + 1, '%' :: ps, c :: cs =>
      likeMatchFuel fuel ps (c :: cs) || likeMatchFuel fuel ('%' :: ps) cs
  | fuel + 1, '_' :: ps, _ :: cs => likeMatchFuel fuel ps cs
  | fuel + 1, p :: ps, c :: cs => p == c && likeMatchFuel fuel ps cs

def likeMatch (p t : List Char) : Bool := likeMatchFuel (p.length + t.length + 1) p t

/-- Source: `text LIKE pattern` with SQLite's default case-insensitive ASCII collation. -/
def sqlLike (pattern text : String) : Bool :=
  likeMatch (lowerChars pattern) (lowerChars text)

/-- The `LIKE '%' || q || '%'` tests built by `getBooksByUserId` and
`searchPublicBooks` (`const searchPattern = `%...%``). -/
def likeContains (q text : String) : Bool := sqlLike ("%" ++ q ++ "%") text

/-! ### Binary-collation string comparison (for `ORDER BY ... title ASC`) -/

def charListLt : List Char → List Char → Bool
  | [], [] => false
  | [], _ :: _ => true
  | _ :: _, [] => false
  | a :: as, b :: bs => if a < b then true else if b < a then false else charListLt as bs

def strLt (s t : String) : Bool := charListLt s.data t.data

def strLe (s t : String) : Bool := strLt s t || s == t

/-! ### Data model: the `users` and `books` tables -/

structure User where
  id : Nat
  username : String
  password_hash : String
  created_at : Nat
deriving DecidableEq, Repr

structure Book where
  id : Nat
  title : String
  author : Option String
  genre : Option String
  status : Option String
  notes : Option String
  user_id : Nat
  created_at : Nat
  updated_at : Nat
deriving DecidableEq, Repr

structure DB where
  users : List User
  books : List Book
  nextBookId : Nat
  nextUserId : Nat
deriving DecidableEq, Repr

/-- Well-formedness delivered by SQLite's rowid allocation: every stored book
id is smaller than the id the next `INSERT` will be assigned. -/
def DB.wf (db : DB) : Prop := ∀ b ∈ db.books, b.id < db.nextBookId

/-! ### `utils/db.js`: user operations -/

/-- Source: `SELECT ... FROM users WHERE username = ?` (first matching row). -/
def findUserByUsername (db : DB) (username : String) : Option User :=
  db.users.find? (fun u => u.username == username)

/-- Source: `INSERT INTO users (username, password_hash) VALUES (?,?)`, returning the
new user id. -/
def createUser (db : DB) (username password_hash : String) (now : Nat) : Nat × DB :=
  let u : User :=
    { id := db.nextUserId, username := username, password_hash := password_hash,
      created_at := now }
  (db.nextUserId, { db with users := db.users ++ [u], nextUserId := db.nextUserId + 1 })

/-! ### `utils/db.js`: book operations -/

/-- Source: `SELECT ... FROM books WHERE id = ?` (first matching row or null). -/
def getBookById (db : DB) (bookId : Nat) : Option Book :=
  db.books.find? (fun b => b.id == bookId)

/-- The row shape produced by `getBooksByUserId`'s column list:
`SELECT id, title, author, genre, status, notes, created_at, updated_at`.
Note that `user_id` is not selected. -/
structure BookListRow where
  id : Nat
  title : String
  author : Option String
  genre : Option String
  status : Option String
  notes : Option String
  created_at : Nat
  updated_at : Nat
deriving DecidableEq, Repr

def Book.toListRow (b : Book) : BookListRow :=
  { id := b.id, title := b.title, author := b.author, genre := b.genre,
    status := b.status, notes := b.notes,
    created_at := b.created_at, updated_at := b.updated_at }

/-- The optional `filters` argument of `getBooksByUserId`. -/
structure Filters where
  status : Option String := none
  genre : Option String := none
  search : Option String := none

/-- The dynamically built `WHERE` clause of `getBooksByUserId`: each filter is
added only when `if (filters.x)` is truthy (so an empty string imposes no
constraint); `status`/`genre` are exact `=` comparisons (false on NULL
columns), `search` is `title LIKE %q% OR author LIKE %q%`. -/
def matchesFilters (f : Filters) (b : Book) : Bool :=
  (match jsOrNull f.status with
   | some s => b.status == some s
   | none => true) &&
  (match jsOrNull f.genre with
   | some g => b.genre == some g
   | none => true) &&
  (match jsOrNull f.search with
   | some q =>
       likeContains q b.title ||
       (match b.author with
        | some a => likeContains q a
        | none => false)
   | none => true)

/-- The `ORDER BY created_at DESC` comparison. -/
def createdDesc (a b : Book) : Prop := b.created_at ≤ a.created_at

instance : DecidableRel createdDesc :=
  fun a b => inferInstanceAs (Decidable (b.created_at ≤ a.created_at))

instance : IsTotal Book createdDesc :=
  ⟨fun a b => Nat.le_total b.created_at a.created_at⟩

instance : IsTrans Book createdDesc :=
  ⟨fun _ _ _ hab hbc => Nat.le_trans hbc hab⟩

/-- Source: `getBooksByUserId(userId, filters)`:
`SELECT id, title, author, genre, status, notes, created_at, updated_at
 FROM books WHERE user_id = ? [AND filters] ORDER BY created_at DESC`. -/
def getBooksByUserId (db : DB) (userId : Nat) (f : Filters) : List BookListRow :=
  (List.insertionSort createdDesc
      (db.books.filter (fun b => b.user_id == userId && matchesFilters f b))).map
    Book.toListRow

/-- The `bookData` argument of `createBook`. -/
structure BookData where
  title : String
  author : Option String
  genre : Option String
  status : Option String
  notes : Option String
  user_id : Nat

inductive DbError
  | missingFields
  | notRetrieved
deriving DecidableEq, Repr

/-- Source: `createBook(bookData)`: rejects falsy `title`/`user_id`, inserts
`(title, author || null, genre || null, status || 'to-read', notes || null,
user_id)` with `created_at`/`updated_at` defaulted to the current time, then
fetches and returns the inserted row by its `lastID`. -/
def createBook (db : DB) (now : Nat) (bd : BookData) : Except DbError (Book × DB) :=
  if bd.title = "" ∨ bd.user_id = 0 then .error .missingFields
  else
    let newBook : Book :=
      { id := db.nextBookId, title := bd.title,
        author := jsOrNull bd.author, genre := jsOrNull bd.genre,
        status := some (jsOrDefault bd.status "to-read"),
        notes := jsOrNull bd.notes, user_id := bd.user_id,
        created_at := now, updated_at := now }
    let db' : DB := { db with books := db.books ++ [newBook], nextBookId := db.nextBookId + 1 }
    match getBookById db' db.nextBookId with
    | some b => .ok (b, db')
    | none => .error .notRetrieved

/-- The field set written by `updateBook`'s `UPDATE` statement. -/
structure UpdateData where
  title : String
  author : Option String
  genre : Option String
  status : Option String
  notes : Option String

def applyUpdate (b : Book) (ud : UpdateData) (now : Nat) : Book :=
  { b with title := ud.title, author := ud.author, genre := ud.genre,
           status := ud.status, notes := ud.notes, updated_at := now }

/-- Source: `UPDATE books SET title = ?, author = ?, genre = ?, status = ?, notes = ?,
updated_at = CURRENT_TIMESTAMP WHERE id = ?`. -/
def updateBook (db : DB) (bookId : Nat) (ud : UpdateData) (now : Nat) : DB :=
  { db with books := db.books.map (fun b => if b.id == bookId then applyUpdate b ud now else b) }

/-- Source: `DELETE FROM books WHERE id = ?`. -/
def deleteBook (db : DB) (bookId : Nat) : DB :=
  { db with books := db.books.filter (fun b => b.id != bookId) }

/-! ### Book routes: validation chains -/

/-- A request body for the book routes.  Fields absent from the JSON body are
`none`.  `user_id` models a client-supplied owner field: no handler ever reads
it. -/
structure BookPayload where
  title : Option String := none
  author : Option String := none
  genre : Option String := none
  status : Option String := none
  notes : Option String := none
  user_id : Option Nat := none

/-- The `.trim()` sanitizers of `bookValidation` (title, author, genre, notes;
`status` has no trim). express-validator sanitizers rewrite the body in
place, so handlers see the trimmed values. -/
def sanitizeBookPayload (p : BookPayload) : BookPayload :=
  { p with title := p.title.map jsTrim, author := p.author.map jsTrim,
           genre := p.genre.map jsTrim, notes := p.notes.map jsTrim }

def statusAllowed (s : String) : Bool := s == "to-read" || s == "reading" || s == "read"

/-- The error list collected by `validationResult` for `bookValidation`:
every failed validator of every chain contributes its message (chains are not
short-circuited).  A missing `title` behaves like the empty string; the
`.optional()` fields are skipped when absent. -/
def bookBodyErrors (p : BookPayload) : List String :=
  let q := sanitizeBookPayload p
  let t := q.title.getD ""
  (if t = "" then ["Title is required"] else []) ++
  (if 1 ≤ t.length ∧ t.length ≤ 255 then []
   else ["Title must be between 1 and 255 characters"]) ++
  (match q.author with
   | some a => if a.length ≤ 255 then [] else ["Author name must not exceed 255 characters"]
   | none => []) ++
  (match q.genre with
   | some g => if g.length ≤ 100 then [] else ["Genre must not exceed 100 characters"]
   | none => []) ++
  (match q.status with
   | some s => if statusAllowed s then [] else ["Status must be one of: to-read, reading, read"]
   | none => []) ++
  (match q.notes with
   | some n => if n.length ≤ 1000 then [] else ["Notes must not exceed 1000 characters"]
   | none => [])

/-- Source: `bookIdValidation`: `param('id').isInt({ min: 1 })`. -/
def bookIdErrors (bookId : Nat) : List String :=
  if 1 ≤ bookId then [] else ["Book ID must be a positive integer"]

/-! ### Book routes: handlers -/

inductive GetBookResponse
  | validationFailed (details : List String)
  | notFound
  | forbidden
  | ok (book : Book)
deriving DecidableEq, Repr

/-- Source: `GET /api/books/:id`: validation, then fetch by id, 404 when missing,
403 when `book.user_id !== userId`, else the book. -/
def getBookRoute (db : DB) (userId : Nat) (bookId : Nat) : GetBookResponse :=
  if bookIdErrors bookId ≠ [] then .validationFailed (bookIdErrors bookId)
  else
    match getBookById db bookId with
    | none => .notFound
    | some book => if book.user_id ≠ userId then .forbidden else .ok book

/-- Source: `GET /api/books`: the handler calls `getBooksByUserId(req.session.userId)`
with no filters and returns the rows. -/
def listBooksRoute (db : DB) (userId : Nat) : List BookListRow :=
  getBooksByUserId db userId {}

inductive CreateBookResponse
  | created (book : Book)
  | serverError
deriving DecidableEq, Repr

/-- Source: `POST /api/books`: the handler builds `bookData` from the (sanitized)
body, with `user_id: req.session.userId` and explicit `|| null` /
`|| 'to-read'` defaults, calls `createBook` and returns the created row.
The client body's own `user_id` field is never read.  (This handler does not
consult `validationResult`; `createBook` itself rejects a falsy title.) -/
def createBookRoute (db : DB) (userId : Nat) (now : Nat) (payload : BookPayload) :
    CreateBookResponse × DB :=
  let p := sanitizeBookPayload payload
  let bd : BookData :=
    { title := p.title.getD "",
      author := jsOrNull p.author,
      genre := jsOrNull p.genre,
      status := some (jsOrDefault p.status "to-read"),
      notes := jsOrNull p.notes,
      user_id := userId }
  match createBook db now bd with
  | .ok (book, db') => (.created book, db')
  | .error _ => (.serverError, db)

inductive UpdateBookResponse
  | validationFailed (details : List String)
  | notFound
  | forbidden
  | ok (book : Option Book)
deriving DecidableEq, Repr

/-- Source: `PUT /api/books/:id`: validation (id and body chains), fetch by id,
404 when missing, 403 when owned by another user, then
`updateBook(bookId, updateData)` followed by a re-fetch of the row. -/
def updateBookRoute (db : DB) (userId bookId : Nat) (payload : BookPayload) (now : Nat) :
    UpdateBookResponse × DB :=
  let errs := bookIdErrors bookId ++ bookBodyErrors payload
  if errs ≠ [] then (.validationFailed errs, db)
  else
    match getBookById db bookId with
    | none => (.notFound, db)
    | some existingBook =>
      if existingBook.user_id ≠ userId then (.forbidden, db)
      else
        let p := sanitizeBookPayload payload
        let ud : UpdateData :=
          { title := jsTrim (p.title.getD ""),
            author := jsOrNull p.author,
            genre := jsOrNull p.genre,
            status := p.status,
            notes := jsOrNull p.notes }
        let db' := updateBook db bookId ud now
        (.ok (getBookById db' bookId), db')

inductive DeleteBookResponse
  | validationFailed (details : List String)
  | notFound
  | forbidden
  | ok (deletedBookId : Nat)
deriving DecidableEq, Repr

/-- Source: `DELETE /api/books/:id`: validation, fetch by id, 404 when missing,
403 when owned by another user, then `deleteBook(bookId)`. -/
def deleteBookRoute (db : DB) (userId bookId : Nat) : DeleteBookResponse × DB :=
  if bookIdErrors bookId ≠ [] then (.validationFailed (bookIdErrors bookId), db)
  else
    match getBookById db bookId with
    | none => (.notFound, db)
    | some book =>
      if book.user_id ≠ userId then (.forbidden, db)
      else (.ok bookId, deleteBook db bookId)

/-! ### `getPublicBookStats`

The five aggregate queries.  `GROUP BY` and the counts are deterministic; the
`ORDER BY` clauses do not fix the relative order of rows with equal counts
(only the popular-books query adds `title ASC`), so each query is modelled as
a predicate relating the database to every row list the query may return. -/

/-- Occurrence counts grouped by key: one `(key, COUNT(*))` pair per distinct
key of `l`. -/
def groupCounts [DecidableEq α] (l : List α) : List (α × Nat) :=
  l.dedup.map (fun k => (k, l.countP (fun x => decide (x = k))))

/-- Source: `ORDER BY count DESC`: adjacent counts are non-increasing. -/
def countDesc (out : List (α × Nat)) : Prop :=
  List.Chain' (fun a b => b.2 ≤ a.2) out

instance {α : Type} (out : List (α × Nat)) : Decidable (countDesc out) := by
  unfold countDesc; infer_instance

/-- An output the query `SELECT key, COUNT(*) ... GROUP BY key ORDER BY count
DESC LIMIT n` may return: the first `n` rows of some count-descending
arrangement of all the groups. -/
def topNBy [DecidableEq α] (src : List α) (n : Nat) (out : List (α × Nat)) : Prop :=
  ∃ full, full.Perm (groupCounts src) ∧ countDesc full ∧ out = full.take n

structure PopularBookRow where
  title : String
  author : Option String
  times_added : Nat
deriving DecidableEq, Repr

structure GenreRow where
  genre : String
  count : Nat
deriving DecidableEq, Repr

structure AuthorRow where
  author : String
  book_count : Nat
deriving DecidableEq, Repr

structure StatusRow where
  status : Option String
  count : Nat
deriving DecidableEq, Repr

/-- Source: `ORDER BY times_added DESC, title ASC` on `(title, author)` groups. -/
def pbOrder (a b : (String × Option String) × Nat) : Prop :=
  b.2 < a.2 ∨ (a.2 = b.2 ∧ strLe a.1.1 b.1.1 = true)

instance : DecidableRel pbOrder :=
  fun _ _ => inferInstanceAs (Decidable (_ ∨ _))

/-- Source: `SELECT title, author, COUNT(*) as times_added FROM books
GROUP BY title, author HAVING COUNT(*) >= 1
ORDER BY times_added DESC, title ASC LIMIT 10`
(the `HAVING` clause never excludes a group). -/
def popularBooksValid (db : DB) (out : List PopularBookRow) : Prop :=
  ∃ full, full.Perm (groupCounts (db.books.map (fun b => (b.title, b.author)))) ∧
    List.Chain' pbOrder full ∧
    out.map (fun r => ((r.title, r.author), r.times_added)) = full.take 10

/-- The grouped column of the popular-genres query:
`WHERE genre IS NOT NULL AND genre != ''`. -/
def genreValues (db : DB) : List String :=
  (db.books.filterMap Book.genre).filter (fun g => g != "")

/-- Source: `SELECT genre, COUNT(*) as count FROM books WHERE genre IS NOT NULL AND
genre != '' GROUP BY genre ORDER BY count DESC LIMIT 10`. -/
def popularGenresValid (db : DB) (out : List GenreRow) : Prop :=
  topNBy (genreValues db) 10 (out.map (fun r => (r.genre, r.count)))

/-- The grouped column of the top-authors query:
`WHERE author IS NOT NULL AND author != ''`. -/
def authorValues (db : DB) : List String :=
  (db.books.filterMap Book.author).filter (fun a => a != "")

/-- Source: `SELECT author, COUNT(*) as book_count FROM books WHERE author IS NOT NULL
AND author != '' GROUP BY author ORDER BY book_count DESC LIMIT 10`. -/
def popularAuthorsValid (db : DB) (out : List AuthorRow) : Prop :=
  topNBy (authorValues db) 10 (out.map (fun r => (r.author, r.book_count)))

/-- Source: `SELECT status, COUNT(*) as count FROM books GROUP BY status
ORDER BY count DESC` (no LIMIT). -/
def statusDistValid (db : DB) (out : List StatusRow) : Prop :=
  ∃ full, full.Perm (groupCounts (db.books.map Book.status)) ∧ countDesc full ∧
    out.map (fun r => (r.status, r.count)) = full

/-- The object returned by `getPublicBookStats`. -/
structure Stats where
  popular_books : List PopularBookRow
  popular_genres : List GenreRow
  popular_authors : List AuthorRow
  status_distribution : List StatusRow
  total_books : Nat
  total_users : Nat
deriving DecidableEq, Repr

/-- Source: `getPublicBookStats()`: the five queries plus the two `COUNT(*)` totals. -/
def statsValid (db : DB) (s : Stats) : Prop :=
  popularBooksValid db s.popular_books ∧
  popularGenresValid db s.popular_genres ∧
  popularAuthorsValid db s.popular_authors ∧
  statusDistValid db s.status_distribution ∧
  s.total_books = db.books.length ∧
  s.total_users = db.users.length

/-! ### `searchPublicBooks` and `GET /api/books/public/search` -/

/-- Source: `(title LIKE ? OR author LIKE ?)` with pattern `%q%`; a NULL author never
matches. -/
def searchMatches (q : String) (b : Book) : Bool :=
  likeContains q b.title ||
  (match b.author with
   | some a => likeContains q a
   | none => false)

/-- The optional `AND genre = ?` clause, added only `if (filters.genre)` is
truthy; a NULL genre never matches an `=` comparison. -/
def genreFilterMatches (gf : Option String) (b : Book) : Bool :=
  match jsOrNull gf with
  | some g => b.genre == some g
  | none => true

structure SearchRow where
  title : String
  author : Option String
  genre : Option String
  popularity : Nat
deriving DecidableEq, Repr

/-- Source: `ORDER BY popularity DESC, title ASC` on `(title, author, genre)` groups. -/
def searchOrder (a b : (String × Option String × Option String) × Nat) : Prop :=
  b.2 < a.2 ∨ (a.2 = b.2 ∧ strLe a.1.1 b.1.1 = true)

instance : DecidableRel searchOrder :=
  fun _ _ => inferInstanceAs (Decidable (_ ∨ _))

/-- Source: `searchPublicBooks(query, filters)`:
`SELECT title, author, genre, COUNT(*) as popularity FROM books
WHERE (title LIKE ? OR author LIKE ?) [AND genre = ?]
GROUP BY title, author, genre ORDER BY popularity DESC, title ASC LIMIT 20`.
(`insertionSort` picks one ordering consistent with the `ORDER BY` clause.) -/
def searchPublicBooks (db : DB) (q : String) (gf : Option String) : List SearchRow :=
  let rows := db.books.filter (fun b => searchMatches q b && genreFilterMatches gf b)
  let groups := groupCounts (rows.map (fun b => (b.title, b.author, b.genre)))
  ((List.insertionSort searchOrder groups).take 20).map
    (fun p => { title := p.1.1, author := p.1.2.1, genre := p.1.2.2, popularity := p.2 })

inductive SearchResponse
  | badRequest (error : String)
  | ok (query : String) (genreFilter : Option String) (results : List SearchRow) (count : Nat)
deriving DecidableEq, Repr

/-- Source: `GET /api/books/public/search`: rejects a missing query or one whose
trimmed length is below 2, else calls `searchPublicBooks(query.trim(), {genre})`
and returns `{query, filters, results, count}`. -/
def searchRoute (db : DB) (q : Option String) (genre : Option String) : SearchResponse :=
  match q with
  | none => .badRequest "Search query must be at least 2 characters long"
  | some query =>
    if (jsTrim query).length < 2 then
      .badRequest "Search query must be at least 2 characters long"
    else
      let rs := searchPublicBooks db (jsTrim query) genre
      .ok query genre rs rs.length

/-! ### Auth routes: `checkPasswordStrength` and the validation chains -/

def hasLower (s : String) : Bool := s.data.any (fun c => 'a' ≤ c && c ≤ 'z')

def hasUpper (s : String) : Bool := s.data.any (fun c => 'A' ≤ c && c ≤ 'Z')

def hasDigit (s : String) : Bool := s.data.any (fun c => '0' ≤ c && c ≤ '9')

/-- The character class of `/[!@#$%^&*(),.?":{}|<>]/`. -/
def passwordSymbols : List Char :=
  ['!', '@', '#', '$', '%', '^', '&', '*', '(', ')', ',', '.', '?', '"', ':',
   '{', '}', '|', '<', '>']

def hasSymbolChar (s : String) : Bool := s.data.any (fun c => passwordSymbols.contains c)

def pwLenOk (s : String) : Bool := decide (6 ≤ s.length)

/-- The `requirements` object of `checkPasswordStrength`. -/
structure PasswordRequirements where
  length : Bool
  hasLowercase : Bool
  hasUppercase : Bool
  hasNumber : Bool
  hasSymbol : Bool
deriving DecidableEq, Repr

def checkPasswordStrength (password : String) : PasswordRequirements :=
  { length := pwLenOk password,
    hasLowercase := hasLower password,
    hasUppercase := hasUpper password,
    hasNumber := hasDigit password,
    hasSymbol := hasSymbolChar password }

/-- Source: `Object.values(requirements).every(Boolean)`. -/
def PasswordRequirements.isStrong (r : PasswordRequirements) : Bool :=
  r.length && r.hasLowercase && r.hasUppercase && r.hasNumber && r.hasSymbol

/-- The five messages `registerValidation` can produce. -/
inductive RegMsg
  | usernameLength
  | usernameCharset
  | passwordLength
  | passwordClasses
  | confirmMismatch
deriving DecidableEq, Repr

/-- The message texts attached by `.withMessage(...)` (and the `confirmPassword`
custom error). -/
def RegMsg.text : RegMsg → String
  | .usernameLength => "Username must be between 3 and 30 characters"
  | .usernameCharset => "Username can only contain letters, numbers, underscores, and hyphens"
  | .passwordLength => "Password must be at least 6 characters long"
  | .passwordClasses =>
      "Password must contain at least one lowercase letter, one uppercase letter, and one number"
  | .confirmMismatch => "Password confirmation does not match password"

/-- The character class of `/^[a-zA-Z0-9_-]+$/`. -/
def usernameCharOk (c : Char) : Bool :=
  ('a' ≤ c && c ≤ 'z') || ('A' ≤ c && c ≤ 'Z') || ('0' ≤ c && c ≤ '9') || c == '_' || c == '-'

structure RegisterInput where
  username : String
  password : String
  confirmPassword : String
deriving DecidableEq, Repr

/-- The error list collected by `validationResult` for `registerValidation`:
username length and charset, password length and the
`(?=.*[a-z])(?=.*[A-Z])(?=.*\d)` class regex, and the confirmation check.
All failed validators contribute (chains are not short-circuited). -/
def registerValidationErrors (inp : RegisterInput) : List RegMsg :=
  (if 3 ≤ inp.username.length ∧ inp.username.length ≤ 30 then [] else [.usernameLength]) ++
  (if inp.username ≠ "" ∧ inp.username.data.all usernameCharOk then [] else [.usernameCharset]) ++
  (if pwLenOk inp.password then [] else [.passwordLength]) ++
  (if hasLower inp.password && hasUpper inp.password && hasDigit inp.password then []
   else [.passwordClasses]) ++
  (if inp.confirmPassword = inp.password then [] else [.confirmMismatch])

inductive RegisterResponse
  | validationFailed (details : List RegMsg)
  | weakPassword (requirements : PasswordRequirements)
  | conflict
  | created (id : Nat) (username : String)
deriving DecidableEq, Repr

/-- Source: `POST /api/auth/register`: the `registerValidation` gate, then
`checkPasswordStrength` (400 with the `requirements` object when not strong),
then the duplicate-username check (409), then `createUser` with the bcrypt
hash (modelled by the `hash` parameter) and a 201 with `{id, username}`. -/
def registerRoute (db : DB) (hash : String → String) (inp : RegisterInput) (now : Nat) :
    RegisterResponse × DB :=
  let errs := registerValidationErrors inp
  if errs ≠ [] then (.validationFailed errs, db)
  else
    let req := checkPasswordStrength inp.password
    if !req.isStrong then (.weakPassword req, db)
    else
      match findUserByUsername db inp.username with
      | some _ => (.conflict, db)
      | none =>
        let r := createUser db inp.username (hash inp.password) now
        (.created r.1 inp.username, r.2)

inductive LoginResponse
  | validationFailed (details : List String)
  | unauthorized (error : String)
  | ok (id : Nat) (username : String)
deriving DecidableEq, Repr

/-- The one message used for both login failure causes. -/
def invalidCredsMsg : String := "Invalid username or password"

/-- Source: `POST /api/auth/login`: `loginValidation` (`notEmpty` on both fields),
then `findUserByUsername`; a missing user and a failed
`bcrypt.compare(password, user.password_hash)` (modelled by `hashMatch`) both
answer 401 with `invalidCredsMsg`; on a match, 200 with `{id, username}`. -/
def loginRoute (db : DB) (hashMatch : String → String → Bool)
    (username password : String) : LoginResponse :=
  let errs :=
    (if username = "" then ["Username is required"] else []) ++
    (if password = "" then ["Password is required"] else [])
  if errs ≠ [] then .validationFailed errs
  else
    match findUserByUsername db username with
    | none => .unauthorized invalidCredsMsg
    | some user =>
      if !hashMatch password user.password_hash then .unauthorized invalidCredsMsg
      else .ok user.id user.username

/-! ### The JSON bodies sent by `res.json`

Modelled structurally so that field names are data: claims C4 and C10 are
about which keys occur in the serialized responses. -/

inductive Json
  | null
  | str (s : String)
  | num (n : Nat)
  | arr (elems : List Json)
  | obj (fields : List (String × Json))
deriving Repr

mutual

/-- All object keys occurring anywhere in a JSON value. -/
def jsonKeys : Json → List String
  | .null => []
  | .str _ => []
  | .num _ => []
  | .arr elems => jsonKeysList elems
  | .obj fields => jsonKeysFields fields

def jsonKeysList : List Json → List String
  | [] => []
  | j :: js => jsonKeys j ++ jsonKeysList js

def jsonKeysFields : List (String × Json) → List String
  | [] => []
  | (k, v) :: fs => k :: (jsonKeys v ++ jsonKeysFields fs)

end

/-- A nullable string column as JSON. -/
def optStrJson : Option String → Json
  | some s => .str s
  | none => .null

def pbRowJson (r : PopularBookRow) : Json :=
  .obj [("title", .str r.title), ("author", optStrJson r.author),
        ("times_added", .num r.times_added)]

def genreRowJson (r : GenreRow) : Json :=
  .obj [("genre", .str r.genre), ("count", .num r.count)]

def authorRowJson (r : AuthorRow) : Json :=
  .obj [("author", .str r.author), ("book_count", .num r.book_count)]

def statusRowJson (r : StatusRow) : Json :=
  .obj [("status", optStrJson r.status), ("count", .num r.count)]

/-- The body `GET /api/books/public` sends:
`{popular_books, popular_genres, popular_authors,
reading_status_distribution, total_books, total_users}`. -/
def publicStatsJson (s : Stats) : Json :=
  .obj [("popular_books", .arr (s.popular_books.map pbRowJson)),
        ("popular_genres", .arr (s.popular_genres.map genreRowJson)),
        ("popular_authors", .arr (s.popular_authors.map authorRowJson)),
        ("reading_status_distribution", .arr (s.status_distribution.map statusRowJson)),
        ("total_books", .num s.total_books),
        ("total_users", .num s.total_users)]

/-- One element of the `books` array sent by `GET /api/books`: a
`getBooksByUserId` row serialized with its eight selected columns. -/
def bookListRowJson (r : BookListRow) : Json :=
  .obj [("id", .num r.id), ("title", .str r.title), ("author", optStrJson r.author),
        ("genre", optStrJson r.genre), ("status", optStrJson r.status),
        ("notes", optStrJson r.notes), ("created_at", .num r.created_at),
        ("updated_at", .num r.updated_at)]

/-! ### Claim-statement definitions

Vocabulary used to state the claims: the password-rule reporting model
for C6, the ordering predicates and concrete instances for C8, and the
substring/`LIKE` match predicates and concrete instance for C9. -/

/-- The five password rules: minimum length plus the four character classes. -/
inductive PasswordRule
  | length
  | lowercase
  | uppercase
  | digit
  | symbol
deriving DecidableEq, Repr

/-- The rules a password violates, read off the `checkPasswordStrength`
flags. -/
def violatedRules (password : String) : List PasswordRule :=
  (if pwLenOk password then [] else [.length]) ++
  (if hasLower password then [] else [.lowercase]) ++
  (if hasUpper password then [] else [.uppercase]) ++
  (if hasDigit password then [] else [.digit]) ++
  (if hasSymbolChar password then [] else [.symbol])

/-- Which password rule a `registerValidation` message speaks about: the
password-length message covers the length rule, and the class-regex message
covers the lowercase/uppercase/digit rules.  No `registerValidation` message
mentions the symbol rule. -/
def RegMsg.coversRule : RegMsg → PasswordRule → Bool
  | .passwordLength, .length => true
  | .passwordClasses, .lowercase => true
  | .passwordClasses, .uppercase => true
  | .passwordClasses, .digit => true
  | _, _ => false

/-- Whether a register response reports a violated password rule: a
validation-failure response reports the rules its messages cover; the
weak-password response reports the rules whose `requirements` flag is false;
the other responses report nothing. -/
def reportsRule : RegisterResponse → PasswordRule → Bool
  | .validationFailed details, r => details.any (fun m => m.coversRule r)
  | .weakPassword req, r =>
      match r with
      | .length => !req.length
      | .lowercase => !req.hasLowercase
      | .uppercase => !req.hasUppercase
      | .digit => !req.hasNumber
      | .symbol => !req.hasSymbol
  | .conflict, _ => false
  | .created _ _, _ => false

def registerFails : RegisterResponse → Bool
  | .validationFailed _ => true
  | .weakPassword _ => true
  | .conflict => false
  | .created _ _ => false

/-- Claim C6 as stated: whenever the password is below the minimum length or
lacks one of the four character classes, registration fails and the error
carries the complete list of violated rules (each violated rule is
reported). -/
def C6Statement : Prop :=
  ∀ (db : DB) (hash : String → String) (inp : RegisterInput) (now : Nat),
    violatedRules inp.password ≠ [] →
    registerFails (registerRoute db hash inp now).1 = true ∧
    ∀ r ∈ violatedRules inp.password,
      reportsRule (registerRoute db hash inp now).1 r = true

/-- Count-descending order with an alphabetical tie-break on the genre, as
the claim states it for the popular-genres rows. -/
def alphaTieGenres (out : List GenreRow) : Prop :=
  List.Chain'
    (fun a b => b.count < a.count ∨ (a.count = b.count ∧ strLt a.genre b.genre = true)) out

instance (out : List GenreRow) : Decidable (alphaTieGenres out) := by
  unfold alphaTieGenres; infer_instance

/-- Count-descending order with an alphabetical tie-break on the author, as
the claim states it for the popular-authors rows. -/
def alphaTieAuthors (out : List AuthorRow) : Prop :=
  List.Chain'
    (fun a b => b.book_count < a.book_count ∨
      (a.book_count = b.book_count ∧ strLt a.author b.author = true)) out

instance (out : List AuthorRow) : Decidable (alphaTieAuthors out) := by
  unfold alphaTieAuthors; infer_instance

/-- The grouped-count content of C8 for the genre rows: every row is a
non-empty genre with its exact occurrence count, at most 10 rows, ordered by
count descending. -/
def genresPart (db : DB) (out : List GenreRow) : Prop :=
  (∀ r ∈ out, r.genre ≠ "" ∧ r.genre ∈ genreValues db ∧
      r.count = (genreValues db).countP (fun x => decide (x = r.genre))) ∧
  out.length ≤ 10 ∧ countDesc (out.map (fun r => (r.genre, r.count)))

/-- The grouped-count content of C8 for the author rows. -/
def authorsPart (db : DB) (out : List AuthorRow) : Prop :=
  (∀ r ∈ out, r.author ≠ "" ∧ r.author ∈ authorValues db ∧
      r.book_count = (authorValues db).countP (fun x => decide (x = r.author))) ∧
  out.length ≤ 10 ∧ countDesc (out.map (fun r => (r.author, r.book_count)))

/-- Claim C8 as stated: both parts hold the grouped occurrence counts
(excluding null/empty values), limited to 10 entries, ordered by count
descending with ties broken alphabetically like the popular-books rows. -/
def C8Statement : Prop :=
  ∀ (db : DB) (s : Stats), statsValid db s →
    genresPart db s.popular_genres ∧ alphaTieGenres s.popular_genres ∧
    authorsPart db s.popular_authors ∧ alphaTieAuthors s.popular_authors

/-- A two-book database whose genres are `"b"` and `"a"`, one occurrence
each. -/
def dbGenreTie : DB :=
  { users := [], nextBookId := 3, nextUserId := 1,
    books := [{ id := 1, title := "t1", author := none, genre := some "b",
                status := some "to-read", notes := none, user_id := 1,
                created_at := 0, updated_at := 0 },
              { id := 2, title := "t2", author := none, genre := some "a",
                status := some "to-read", notes := none, user_id := 1,
                created_at := 0, updated_at := 0 }] }

/-- A statistics object `getPublicBookStats` may return for `dbGenreTie`:
with both genre counts equal, `ORDER BY count DESC` permits the order
`["b", "a"]`. -/
def statsGenreTie : Stats :=
  { popular_books := [{ title := "t1", author := none, times_added := 1 },
                      { title := "t2", author := none, times_added := 1 }],
    popular_genres := [{ genre := "b", count := 1 }, { genre := "a", count := 1 }],
    popular_authors := [],
    status_distribution := [{ status := some "to-read", count := 2 }],
    total_books := 2,
    total_users := 0 }

/-- Source: `needle` is a prefix of `hay` (plain character equality). -/
def startsWithCL : List Char → List Char → Bool
  | [], _ => true
  | _ :: _, [] => false
  | a :: as, b :: bs => a == b && startsWithCL as bs

/-- Source: `needle` occurs as a contiguous substring of `hay`. -/
def substrCL (needle : List Char) : List Char → Bool
  | [] => startsWithCL needle []
  | c :: cs => startsWithCL needle (c :: cs) || substrCL needle cs

/-- Case-insensitive literal substring containment, as the claim states the
match. -/
def containsCI (hay needle : String) : Bool :=
  substrCL (lowerChars needle) (lowerChars hay)

/-- A search result's title or author contains `q` as a case-insensitive
literal substring. -/
def rowSubstrMatch (r : SearchRow) (q : String) : Prop :=
  containsCI r.title q = true ∨ ∃ a, r.author = some a ∧ containsCI a q = true

/-- Claim C9 as stated: for every query accepted by the public search route,
every returned result group corresponds to records whose title or author
contains the query text as a case-insensitive substring. -/
def C9Statement : Prop :=
  ∀ (db : DB) (q : String) (g : Option String) (qq : String) (gg : Option String)
    (results : List SearchRow) (count : Nat),
    searchRoute db (some q) g = .ok qq gg results count →
    ∀ r ∈ results, rowSubstrMatch r q

/-- A one-book database whose title `"axb"` matches the `LIKE` pattern built
from the query `"a%b"` without containing `"a%b"` as a literal substring. -/
def dbLikeWildcard : DB :=
  { users := [], nextBookId := 2, nextUserId := 1,
    books := [{ id := 1, title := "axb", author := none, genre := none,
                status := some "to-read", notes := none, user_id := 1,
                created_at := 0, updated_at := 0 }] }

/-- A search result's title or author matches the `LIKE '%' ++ qt ++ '%'`
pattern (case-insensitive, `%`/`_` wildcards). -/
def rowLikeMatch (r : SearchRow) (qt : String) : Prop :=
  likeContains qt r.title = true ∨ ∃ a, r.author = some a ∧ likeContains qt a = true

/-! ## Helper lemmas -/

theorem find?_append_left_none {α : Type} {p : α → Bool} {l₁ l₂ : List α}
    (h : ∀ x ∈ l₁, p x = false) : List.find? p (l₁ ++ l₂) = List.find? p l₂ := by
  induction l₁ with
  | nil => rfl
  | cons a as ih =>
    rw [List.cons_append, List.find?_cons, h a (List.mem_cons_self a as)]
    exact ih fun x hx => h x (List.mem_cons_of_mem a hx)

/-- Source: `createBook` on a well-formed database with non-falsy title and user id
inserts a fresh row owned by `bd.user_id` and returns exactly that row. -/
theorem createBook_ok (db : DB) (now : Nat) (bd : BookData)
    (hwf : db.wf) (ht : bd.title ≠ "") (hu : bd.user_id ≠ 0) :
    ∃ nb db', createBook db now bd = .ok (nb, db') ∧
      nb.user_id = bd.user_id ∧ nb ∈ db'.books ∧ nb.id = db.nextBookId := by
  unfold createBook
  rw [if_neg (by push_neg; exact ⟨ht, hu⟩)]
  set newBook : Book :=
    { id := db.nextBookId, title := bd.title,
      author := jsOrNull bd.author, genre := jsOrNull bd.genre,
      status := some (jsOrDefault bd.status "to-read"),
      notes := jsOrNull bd.notes, user_id := bd.user_id,
      created_at := now, updated_at := now } with hnb
  have hfetch :
      getBookById { db with books := db.books ++ [newBook], nextBookId := db.nextBookId + 1 }
        db.nextBookId = some newBook := by
    unfold getBookById
    show List.find? _ (db.books ++ [newBook]) = _
    rw [find?_append_left_none fun x hx => by
      have hlt := hwf x hx
      simp [Nat.ne_of_lt hlt]]
    simp [List.find?_cons]
  simp only [hfetch]
  exact ⟨newBook, _, rfl, rfl, by simp, rfl⟩

/-! ## Claim C1 -/

/-- C1: for every authenticated caller (a session user id, nonzero) and every
valid create input (title non-empty after trimming), the book created by
`POST /api/books` — both the row persisted in the database and the record
returned in the 201 response — has `user_id` equal to the session's user id,
whatever `user_id` value the client put in the payload (the handler never
reads it). -/
theorem createRoute_forces_session_owner
    (db : DB) (userId now : Nat) (payload : BookPayload)
    (hwf : db.wf) (huid : userId ≠ 0)
    (htitle : jsTrim (payload.title.getD "") ≠ "") :
    ∃ b db', createBookRoute db userId now payload = (.created b, db') ∧
      b.user_id = userId ∧ b ∈ db'.books := by
  have hsan : (sanitizeBookPayload payload).title.getD "" = jsTrim (payload.title.getD "") := by
    cases h : payload.title with
    | none => simp [sanitizeBookPayload, h]; rfl
    | some t => simp [sanitizeBookPayload, h]
  obtain ⟨nb, db', hok, hu, hmem, _⟩ :=
    createBook_ok db now
      { title := (sanitizeBookPayload payload).title.getD "",
        author := jsOrNull (sanitizeBookPayload payload).author,
        genre := jsOrNull (sanitizeBookPayload payload).genre,
        status := some (jsOrDefault (sanitizeBookPayload payload).status "to-read"),
        notes := jsOrNull (sanitizeBookPayload payload).notes,
        user_id := userId }
      hwf (by rw [hsan]; exact htitle) huid
  refine ⟨nb, db', ?_, hu, hmem⟩
  unfold createBookRoute
  simp only [hok]

/-- Witness for C1 at a concrete database and payload (the payload carries a
foreign `user_id := 99`, which the handler ignores). -/
theorem createRoute_forces_session_owner_witness :
    ∃ b db',
      createBookRoute { users := [], books := [], nextBookId := 1, nextUserId := 2 } 7 0
          { title := some "Dune", user_id := some 99 } = (.created b, db') ∧
        b.user_id = 7 ∧ b ∈ db'.books :=
  createRoute_forces_session_owner _ 7 0 _ (by intro b hb; simp at hb) (by decide) (by decide)

/-! ## Claim C2 -/

/-- C2: for two distinct accounts `uidA ≠ uidB` and a stored book owned by
`uidB`, the single-resource operations `GET/PUT/DELETE /api/books/:id` invoked
by `uidA` (with a well-formed id and, for `PUT`, a body passing validation)
all answer 403 (`forbidden`) and leave the database — in particular the
record — unchanged. -/
theorem foreign_book_ops_forbidden_unchanged
    (db : DB) (uidA uidB bookId : Nat) (bk : Book) (payload : BookPayload) (now : Nat)
    (hab : uidA ≠ uidB) (hbk : getBookById db bookId = some bk) (hown : bk.user_id = uidB)
    (hid : 1 ≤ bookId) (hbody : bookBodyErrors payload = []) :
    getBookRoute db uidA bookId = .forbidden ∧
    updateBookRoute db uidA bookId payload now = (.forbidden, db) ∧
    deleteBookRoute db uidA bookId = (.forbidden, db) := by
  have hids : bookIdErrors bookId = [] := by simp [bookIdErrors, hid]
  have hne : bk.user_id ≠ uidA := by rw [hown]; exact fun h => hab h.symm
  refine ⟨?_, ?_, ?_⟩
  · simp [getBookRoute, hids, hbk, hne]
  · simp [updateBookRoute, hids, hbody, hbk, hne]
  · simp [deleteBookRoute, hids, hbk, hne]

/-- Witness for C2: user 1 attempts all three operations on a book owned by
user 2. -/
theorem foreign_book_ops_forbidden_unchanged_witness :
    getBookRoute
        { users := [], nextBookId := 4, nextUserId := 3,
          books := [{ id := 3, title := "Dune", author := none, genre := none,
                      status := some "read", notes := none, user_id := 2,
                      created_at := 0, updated_at := 0 }] } 1 3 = .forbidden ∧
    updateBookRoute
        { users := [], nextBookId := 4, nextUserId := 3,
          books := [{ id := 3, title := "Dune", author := none, genre := none,
                      status := some "read", notes := none, user_id := 2,
                      created_at := 0, updated_at := 0 }] } 1 3
        { title := some "Hacked", status := some "read" } 5 =
      (.forbidden,
        { users := [], nextBookId := 4, nextUserId := 3,
          books := [{ id := 3, title := "Dune", author := none, genre := none,
                      status := some "read", notes := none, user_id := 2,
                      created_at := 0, updated_at := 0 }] }) ∧
    deleteBookRoute
        { users := [], nextBookId := 4, nextUserId := 3,
          books := [{ id := 3, title := "Dune", author := none, genre := none,
                      status := some "read", notes := none, user_id := 2,
                      created_at := 0, updated_at := 0 }] } 1 3 =
      (.forbidden,
        { users := [], nextBookId := 4, nextUserId := 3,
          books := [{ id := 3, title := "Dune", author := none, genre := none,
                      status := some "read", notes := none, user_id := 2,
                      created_at := 0, updated_at := 0 }] }) :=
  foreign_book_ops_forbidden_unchanged _ 1 2 3 _ _ 5 (by decide) rfl rfl
    (by decide) (by decide)

/-! ## Claim C3 -/

/-- C3: for each single-resource book route (with a well-formed id and, for
`PUT`, a body passing validation): a missing id answers 404 with the database
unchanged; a 403 can only arise for an id that resolves to an existing record
owned by a different user; and the database is mutated only when the record
exists and the ownership check passes — the existence check precedes the
ownership check, which precedes any mutation. -/
theorem existence_before_ownership_before_mutation
    (db : DB) (uid bookId : Nat) (payload : BookPayload) (now : Nat)
    (hid : 1 ≤ bookId) (hbody : bookBodyErrors payload = []) :
    (getBookById db bookId = none →
       getBookRoute db uid bookId = .notFound ∧
       updateBookRoute db uid bookId payload now = (.notFound, db) ∧
       deleteBookRoute db uid bookId = (.notFound, db)) ∧
    ((getBookRoute db uid bookId = .forbidden ∨
      (updateBookRoute db uid bookId payload now).1 = .forbidden ∨
      (deleteBookRoute db uid bookId).1 = .forbidden) →
       ∃ bk, getBookById db bookId = some bk ∧ bk.user_id ≠ uid) ∧
    (((updateBookRoute db uid bookId payload now).2 ≠ db ∨
      (deleteBookRoute db uid bookId).2 ≠ db) →
       ∃ bk, getBookById db bookId = some bk ∧ bk.user_id = uid) := by
  have hids : bookIdErrors bookId = [] := by simp [bookIdErrors, hid]
  refine ⟨?_, ?_, ?_⟩
  · intro hnone
    refine ⟨?_, ?_, ?_⟩
    · simp [getBookRoute, hids, hnone]
    · simp [updateBookRoute, hids, hbody, hnone]
    · simp [deleteBookRoute, hids, hnone]
  · intro hforb
    cases hbk : getBookById db bookId with
    | none =>
      exfalso
      rcases hforb with h | h | h
      · simp [getBookRoute, hids, hbk] at h
      · simp [updateBookRoute, hids, hbody, hbk] at h
      · simp [deleteBookRoute, hids, hbk] at h
    | some bk =>
      refine ⟨bk, rfl, ?_⟩
      by_cases hown : bk.user_id = uid
      · exfalso
        rcases hforb with h | h | h
        · simp [getBookRoute, hids, hbk, hown] at h
        · simp [updateBookRoute, hids, hbody, hbk, hown] at h
        · simp [deleteBookRoute, hids, hbk, hown] at h
      · exact hown
  · intro hmut
    cases hbk : getBookById db bookId with
    | none =>
      exfalso
      rcases hmut with h | h
      · simp [updateBookRoute, hids, hbody, hbk] at h
      · simp [deleteBookRoute, hids, hbk] at h
    | some bk =>
      refine ⟨bk, rfl, ?_⟩
      by_cases hown : bk.user_id = uid
      · exact hown
      · exfalso
        rcases hmut with h | h
        · simp [updateBookRoute, hids, hbody, hbk, hown] at h
        · simp [deleteBookRoute, hids, hbk, hown] at h

/-- Witness for C3: looking up the absent id 9 in a one-book database. -/
theorem existence_before_ownership_before_mutation_witness :
    getBookRoute
        { users := [], nextBookId := 4, nextUserId := 3,
          books := [{ id := 3, title := "Dune", author := none, genre := none,
                      status := some "read", notes := none, user_id := 2,
                      created_at := 0, updated_at := 0 }] } 1 9 = .notFound :=
  ((existence_before_ownership_before_mutation _ 1 9
        { title := some "T", status := some "read" } 0 (by decide) (by decide)).1
    (by decide)).1

/-! ## Claim C5 -/

/-- C5: every login attempt that fails because the username is unknown or
because the stored hash does not match receives the one literal
`unauthorized` response carrying `invalidCredsMsg` — the two causes produce
identical responses, so they cannot be told apart by the caller. -/
theorem login_failure_single_message
    (db : DB) (hashMatch : String → String → Bool) (username password : String)
    (hu : username ≠ "") (hp : password ≠ "")
    (hfail : findUserByUsername db username = none ∨
      ∃ u, findUserByUsername db username = some u ∧ hashMatch password u.password_hash = false) :
    loginRoute db hashMatch username password = .unauthorized invalidCredsMsg := by
  unfold loginRoute
  rw [if_neg (by simp [hu, hp])]
  rcases hfail with hnone | ⟨u, hsome, hmatch⟩
  · rw [hnone]
  · rw [hsome]
    simp [hmatch]

/-- Witness for C5: a login against an empty user table. -/
theorem login_failure_single_message_witness :
    loginRoute { users := [], books := [], nextBookId := 1, nextUserId := 1 }
        (fun _ _ => false) "alice" "Secret1" = .unauthorized invalidCredsMsg :=
  login_failure_single_message _ _ _ _ (by decide) (by decide) (Or.inl rfl)

/-! ## Claim C7 -/

/-- C7: `list` without filters returns exactly the caller's records (as a
permutation of the owner-filtered table, projected to the selected columns),
ordered newest-first by `created_at`; adding a `status` filter yields a subset
of that result in which every row's status equals the filter value. -/
theorem list_owner_scope_order_and_status_filter (db : DB) (uid : Nat) :
    (getBooksByUserId db uid {}).Perm
        ((db.books.filter (fun b => b.user_id == uid)).map Book.toListRow) ∧
    List.Pairwise (fun a b : BookListRow => b.created_at ≤ a.created_at)
        (getBooksByUserId db uid {}) ∧
    ∀ s, s ≠ "" → ∀ r ∈ getBooksByUserId db uid { status := some s },
      r ∈ getBooksByUserId db uid {} ∧ r.status = some s := by
  have hnof : db.books.filter (fun b => b.user_id == uid && matchesFilters {} b) =
      db.books.filter (fun b => b.user_id == uid) :=
    List.filter_congr fun x _ => by simp [matchesFilters, jsOrNull]
  refine ⟨?_, ?_, ?_⟩
  · unfold getBooksByUserId
    rw [hnof]
    exact (List.perm_insertionSort _ _).map _
  · exact (List.sorted_insertionSort createdDesc _).map Book.toListRow fun _ _ h => h
  · intro s hs r hr
    obtain ⟨x, hxmem, hxr⟩ := List.mem_map.mp hr
    have hxfil := (List.mem_insertionSort createdDesc).mp hxmem
    obtain ⟨hxdb, hxpred⟩ := List.mem_filter.mp hxfil
    obtain ⟨hxuid, hxmatch⟩ :
        (x.user_id == uid) = true ∧ matchesFilters { status := some s } x = true := by
      simpa using hxpred
    have hxstatus : x.status = some s := by
      simp [matchesFilters, jsOrNull, hs] at hxmatch
      exact hxmatch
    refine ⟨?_, ?_⟩
    · have hxin : x ∈ db.books.filter (fun b => b.user_id == uid && matchesFilters {} b) := by
        refine List.mem_filter.mpr ⟨hxdb, ?_⟩
        simp [hxuid, matchesFilters, jsOrNull]
      rw [← hxr]
      exact List.mem_map_of_mem _ ((List.mem_insertionSort createdDesc).mpr hxin)
    · rw [← hxr]
      exact hxstatus

/-- Witness for C7's filtered clause at a concrete database. -/
theorem list_owner_scope_order_and_status_filter_witness :
    ({ id := 1, title := "Dune", author := none, genre := none, status := some "read",
       notes := none, created_at := 4, updated_at := 4 } : BookListRow) ∈
      getBooksByUserId
        { users := [], nextBookId := 3, nextUserId := 2,
          books := [{ id := 1, title := "Dune", author := none, genre := none,
                      status := some "read", notes := none, user_id := 1,
                      created_at := 4, updated_at := 4 },
                    { id := 2, title := "Emma", author := none, genre := none,
                      status := some "to-read", notes := none, user_id := 1,
                      created_at := 5, updated_at := 5 }] } 1 {} :=
  ((list_owner_scope_order_and_status_filter _ 1).2.2 "read" (by decide) _ (by decide)).1

/-! ## JSON key lemmas -/

theorem keys_optStrJson (o : Option String) : jsonKeys (optStrJson o) = [] := by
  cases o <;> rfl

theorem keys_bookListRowJson (r : BookListRow) :
    jsonKeys (bookListRowJson r) =
      ["id", "title", "author", "genre", "status", "notes", "created_at", "updated_at"] := by
  simp [bookListRowJson, jsonKeys, jsonKeysFields, keys_optStrJson]

theorem keys_pbRowJson (r : PopularBookRow) :
    jsonKeys (pbRowJson r) = ["title", "author", "times_added"] := by
  simp [pbRowJson, jsonKeys, jsonKeysFields, keys_optStrJson]

theorem keys_genreRowJson (r : GenreRow) : jsonKeys (genreRowJson r) = ["genre", "count"] := by
  simp [genreRowJson, jsonKeys, jsonKeysFields]

theorem keys_authorRowJson (r : AuthorRow) :
    jsonKeys (authorRowJson r) = ["author", "book_count"] := by
  simp [authorRowJson, jsonKeys, jsonKeysFields]

theorem keys_statusRowJson (r : StatusRow) :
    jsonKeys (statusRowJson r) = ["status", "count"] := by
  simp [statusRowJson, jsonKeys, jsonKeysFields, keys_optStrJson]

theorem mem_keysList_map {α : Type} (f : α → Json) (ks : List String)
    (hf : ∀ a, jsonKeys (f a) = ks) (l : List α) :
    ∀ x ∈ jsonKeysList (l.map f), x ∈ ks := by
  induction l with
  | nil => intro x hx; simp [jsonKeysList] at hx
  | cons a as ih =>
    intro x hx
    rw [List.map_cons] at hx
    simp only [jsonKeysList, hf, List.mem_append] at hx
    rcases hx with hx | hx
    · exact hx
    · exact ih x hx

theorem keys_publicStatsJson (s : Stats) :
    jsonKeys (publicStatsJson s) =
      "popular_books" :: (jsonKeysList (s.popular_books.map pbRowJson) ++
        "popular_genres" :: (jsonKeysList (s.popular_genres.map genreRowJson) ++
        "popular_authors" :: (jsonKeysList (s.popular_authors.map authorRowJson) ++
        "reading_status_distribution" :: (jsonKeysList (s.status_distribution.map statusRowJson) ++
        ["total_books", "total_users"])))) := by
  simp [publicStatsJson, jsonKeys, jsonKeysFields]

/-! ## Claim C4 -/

/-- C4: for every database state (in particular one holding a single account)
and every statistics object `getPublicBookStats` may produce for it, the JSON
body sent by `GET /api/books/public` contains no `user_id` key and no
`username` key anywhere — neither at top level nor inside the popular-books,
popular-genres, popular-authors or status-distribution rows. -/
theorem publicStats_no_user_or_username_field (db : DB) (s : Stats)
    (_hvalid : statsValid db s) :
    "user_id" ∉ jsonKeys (publicStatsJson s) ∧
    "username" ∉ jsonKeys (publicStatsJson s) := by
  have hforbid : ∀ x : String, x ∈ ["user_id", "username"] →
      x ∉ jsonKeys (publicStatsJson s) := by
    intro x hxf hx
    rw [keys_publicStatsJson] at hx
    simp only [List.mem_cons, List.mem_append, List.not_mem_nil, or_false] at hx
    rcases hx with rfl | hx | rfl | hx | rfl | hx | rfl | hx | rfl | rfl
    · exact absurd hxf (by decide)
    · have h2 := mem_keysList_map pbRowJson _ keys_pbRowJson s.popular_books x hx
      simp only [List.mem_cons, List.not_mem_nil, or_false] at h2
      rcases h2 with rfl | rfl | rfl <;> exact absurd hxf (by decide)
    · exact absurd hxf (by decide)
    · have h2 := mem_keysList_map genreRowJson _ keys_genreRowJson s.popular_genres x hx
      simp only [List.mem_cons, List.not_mem_nil, or_false] at h2
      rcases h2 with rfl | rfl <;> exact absurd hxf (by decide)
    · exact absurd hxf (by decide)
    · have h2 := mem_keysList_map authorRowJson _ keys_authorRowJson s.popular_authors x hx
      simp only [List.mem_cons, List.not_mem_nil, or_false] at h2
      rcases h2 with rfl | rfl <;> exact absurd hxf (by decide)
    · exact absurd hxf (by decide)
    · have h2 := mem_keysList_map statusRowJson _ keys_statusRowJson s.status_distribution x hx
      simp only [List.mem_cons, List.not_mem_nil, or_false] at h2
      rcases h2 with rfl | rfl <;> exact absurd hxf (by decide)
    · exact absurd hxf (by decide)
    · exact absurd hxf (by decide)
  exact ⟨hforbid _ (by decide), hforbid _ (by decide)⟩

/-- Witness for C4 at the empty database with the (valid) empty statistics. -/
theorem publicStats_no_user_or_username_field_witness :
    "user_id" ∉ jsonKeys (publicStatsJson
        { popular_books := [], popular_genres := [], popular_authors := [],
          status_distribution := [], total_books := 0, total_users := 0 }) ∧
    "username" ∉ jsonKeys (publicStatsJson
        { popular_books := [], popular_genres := [], popular_authors := [],
          status_distribution := [], total_books := 0, total_users := 0 }) :=
  publicStats_no_user_or_username_field { users := [], books := [], nextBookId := 1, nextUserId := 1 } _
    ⟨⟨[], List.Perm.refl _, List.chain'_nil, rfl⟩,
     ⟨[], List.Perm.refl _, List.chain'_nil, rfl⟩,
     ⟨[], List.Perm.refl _, List.chain'_nil, rfl⟩,
     ⟨[], List.Perm.refl _, List.chain'_nil, rfl⟩,
     rfl, rfl⟩

/-! ## Claim C10 -/

/-- C10: every element of the `books` array returned by the owner's list
operation — for every caller and every filter combination — serializes with
exactly the eight selected columns `id, title, author, genre, status, notes,
created_at, updated_at`; in particular the `user_id` column never appears. -/
theorem list_rows_have_only_selected_fields (db : DB) (uid : Nat) (f : Filters) :
    ∀ j ∈ (getBooksByUserId db uid f).map bookListRowJson,
      jsonKeys j =
          ["id", "title", "author", "genre", "status", "notes", "created_at", "updated_at"] ∧
      "user_id" ∉ jsonKeys j := by
  intro j hj
  obtain ⟨r, _, rfl⟩ := List.mem_map.mp hj
  refine ⟨keys_bookListRowJson r, ?_⟩
  rw [keys_bookListRowJson]
  decide

/-- Witness for C10 at a concrete one-book database. -/
theorem list_rows_have_only_selected_fields_witness :
    jsonKeys (bookListRowJson
        { id := 1, title := "Dune", author := none, genre := none, status := some "read",
          notes := none, created_at := 4, updated_at := 4 }) =
        ["id", "title", "author", "genre", "status", "notes", "created_at", "updated_at"] ∧
    "user_id" ∉ jsonKeys (bookListRowJson
        { id := 1, title := "Dune", author := none, genre := none, status := some "read",
          notes := none, created_at := 4, updated_at := 4 }) :=
  list_rows_have_only_selected_fields
    { users := [], nextBookId := 2, nextUserId := 2,
      books := [{ id := 1, title := "Dune", author := none, genre := none,
                  status := some "read", notes := none, user_id := 1,
                  created_at := 4, updated_at := 4 }] } 1 {} _
    (List.mem_map_of_mem bookListRowJson (by decide))

/-! ## Claim C6 -/

/-- Membership in `violatedRules` is exactly the negation of the matching
strength flag. -/
theorem mem_violated_iff (p : String) (r : PasswordRule) :
    r ∈ violatedRules p ↔
      (match r with
       | .length => pwLenOk p = false
       | .lowercase => hasLower p = false
       | .uppercase => hasUpper p = false
       | .digit => hasDigit p = false
       | .symbol => hasSymbolChar p = false) := by
  cases r <;> cases hpw : pwLenOk p <;> cases h1 : hasLower p <;> cases h2 : hasUpper p <;>
    cases h3 : hasDigit p <;> cases h4 : hasSymbolChar p <;>
      simp [violatedRules, hpw, h1, h2, h3, h4]

theorem passwordLength_mem_errors (inp : RegisterInput) (h : pwLenOk inp.password = false) :
    RegMsg.passwordLength ∈ registerValidationErrors inp := by
  unfold registerValidationErrors
  refine List.mem_append.mpr (Or.inl ?_)
  refine List.mem_append.mpr (Or.inl ?_)
  refine List.mem_append.mpr (Or.inr ?_)
  simp [h]

theorem passwordClasses_mem_errors (inp : RegisterInput)
    (h : (hasLower inp.password && hasUpper inp.password && hasDigit inp.password) = false) :
    RegMsg.passwordClasses ∈ registerValidationErrors inp := by
  unfold registerValidationErrors
  refine List.mem_append.mpr (Or.inl ?_)
  refine List.mem_append.mpr (Or.inr ?_)
  simp [h]

theorem errors_nil_password_flags (inp : RegisterInput)
    (h : registerValidationErrors inp = []) :
    pwLenOk inp.password = true ∧ hasLower inp.password = true ∧
    hasUpper inp.password = true ∧ hasDigit inp.password = true := by
  have hlen : pwLenOk inp.password = true := by
    cases hf : pwLenOk inp.password
    · exact absurd (h ▸ passwordLength_mem_errors inp hf) (by simp)
    · rfl
  have hc : (hasLower inp.password && hasUpper inp.password && hasDigit inp.password) = true := by
    cases hf : (hasLower inp.password && hasUpper inp.password && hasDigit inp.password)
    · exact absurd (h ▸ passwordClasses_mem_errors inp hf) (by simp)
    · rfl
  have hc' : hasLower inp.password = true ∧ hasUpper inp.password = true ∧
      hasDigit inp.password = true := by
    simpa [and_assoc] using hc
  exact ⟨hlen, hc'.1, hc'.2.1, hc'.2.2⟩

/-- Counterexample for C6 as stated: for the password `"abcdefg"` (length ok,
lowercase only) the uppercase/digit violations make the format-stage regex
message fire, so registration answers with the `registerValidation` details —
but none of those messages covers the (also violated) symbol rule, so the
response does not carry the complete list of violated rules. -/
theorem register_symbol_rule_not_reported : ¬ C6Statement := by
  intro h
  have h2 := (h { users := [], books := [], nextBookId := 1, nextUserId := 1 } (fun s => s)
      { username := "alice", password := "abcdefg", confirmPassword := "abcdefg" } 0
      (by decide)).2 .symbol (by decide)
  revert h2
  decide

/-- C6 amended: registration fails whenever the password violates the length
rule or any of the four character-class rules; the failing response reports
every violated rule other than the symbol rule; and whenever the format-stage
validation passes (so the strength check is the stage that fails), the
response reports every violated rule, the symbol rule included.  What the
counterexample removes from the claim: when a format-stage rule fails
together with the symbol rule, the symbol violation goes unreported. -/
theorem register_fails_and_reports_nonsymbol_rules
    (db : DB) (hash : String → String) (inp : RegisterInput) (now : Nat)
    (hviol : violatedRules inp.password ≠ []) :
    registerFails (registerRoute db hash inp now).1 = true ∧
    (∀ r ∈ violatedRules inp.password, r ≠ .symbol →
      reportsRule (registerRoute db hash inp now).1 r = true) ∧
    (registerValidationErrors inp = [] →
      ∀ r ∈ violatedRules inp.password,
        reportsRule (registerRoute db hash inp now).1 r = true) := by
  by_cases hE : registerValidationErrors inp = []
  · -- the format stage passes: only the symbol rule can be violated
    obtain ⟨hlen, hlo, hup, hdg⟩ := errors_nil_password_flags inp hE
    have hsym : hasSymbolChar inp.password = false := by
      cases hs : hasSymbolChar inp.password
      · rfl
      · exact absurd (by simp [violatedRules, hlen, hlo, hup, hdg, hs]) hviol
    have hweak : (registerRoute db hash inp now).1 =
        .weakPassword (checkPasswordStrength inp.password) := by
      simp [registerRoute, hE, PasswordRequirements.isStrong, checkPasswordStrength, hsym]
    refine ⟨by rw [hweak]; rfl, ?_, ?_⟩
    · intro r hr hrs
      cases r
      · have h5 : pwLenOk inp.password = false := (mem_violated_iff _ _).mp hr
        rw [hlen] at h5; exact absurd h5 (by decide)
      · have h5 : hasLower inp.password = false := (mem_violated_iff _ _).mp hr
        rw [hlo] at h5; exact absurd h5 (by decide)
      · have h5 : hasUpper inp.password = false := (mem_violated_iff _ _).mp hr
        rw [hup] at h5; exact absurd h5 (by decide)
      · have h5 : hasDigit inp.password = false := (mem_violated_iff _ _).mp hr
        rw [hdg] at h5; exact absurd h5 (by decide)
      · exact absurd rfl hrs
    · intro _ r hr
      cases r
      · have h5 : pwLenOk inp.password = false := (mem_violated_iff _ _).mp hr
        rw [hlen] at h5; exact absurd h5 (by decide)
      · have h5 : hasLower inp.password = false := (mem_violated_iff _ _).mp hr
        rw [hlo] at h5; exact absurd h5 (by decide)
      · have h5 : hasUpper inp.password = false := (mem_violated_iff _ _).mp hr
        rw [hup] at h5; exact absurd h5 (by decide)
      · have h5 : hasDigit inp.password = false := (mem_violated_iff _ _).mp hr
        rw [hdg] at h5; exact absurd h5 (by decide)
      · have h5 : hasSymbolChar inp.password = false := (mem_violated_iff _ _).mp hr
        rw [hweak]
        show (!(checkPasswordStrength inp.password).hasSymbol) = true
        simp [checkPasswordStrength, h5]
  · -- the format stage fails and answers with its message list
    have hroute : (registerRoute db hash inp now).1 =
        .validationFailed (registerValidationErrors inp) := by
      simp [registerRoute, hE]
    refine ⟨by rw [hroute]; rfl, ?_, fun h0 => absurd h0 hE⟩
    intro r hr hrs
    rw [hroute]
    show (registerValidationErrors inp).any (fun m => m.coversRule r) = true
    rw [List.any_eq_true]
    cases r
    · exact ⟨.passwordLength,
        passwordLength_mem_errors inp ((mem_violated_iff _ _).mp hr), rfl⟩
    · have h5 : hasLower inp.password = false := (mem_violated_iff _ _).mp hr
      exact ⟨.passwordClasses, passwordClasses_mem_errors inp (by simp [h5]), rfl⟩
    · have h5 : hasUpper inp.password = false := (mem_violated_iff _ _).mp hr
      exact ⟨.passwordClasses, passwordClasses_mem_errors inp (by simp [h5]), rfl⟩
    · have h5 : hasDigit inp.password = false := (mem_violated_iff _ _).mp hr
      exact ⟨.passwordClasses, passwordClasses_mem_errors inp (by simp [h5]), rfl⟩
    · exact absurd rfl hrs

/-- Witness for the amended C6 at a concrete weak password. -/
theorem register_fails_and_reports_nonsymbol_rules_witness :
    registerFails (registerRoute { users := [], books := [], nextBookId := 1, nextUserId := 1 }
        (fun s => s) { username := "carol", password := "abcdef", confirmPassword := "abcdef" }
        0).1 = true :=
  (register_fails_and_reports_nonsymbol_rules _ _ _ 0 (by decide)).1

/-! ## Claim C8 -/

theorem statsGenreTie_valid : statsValid dbGenreTie statsGenreTie := by
  refine ⟨⟨groupCounts (dbGenreTie.books.map (fun b => (b.title, b.author))),
            List.Perm.refl _, ?_, ?_⟩,
          ⟨groupCounts (genreValues dbGenreTie), List.Perm.refl _, ?_, ?_⟩,
          ⟨groupCounts (authorValues dbGenreTie), List.Perm.refl _, ?_, ?_⟩,
          ⟨groupCounts (dbGenreTie.books.map Book.status), List.Perm.refl _, ?_, ?_⟩,
          rfl, rfl⟩
  · show List.Chain' pbOrder [(("t1", none), 1), (("t2", none), 1)]
    exact List.chain'_cons.mpr ⟨Or.inr ⟨rfl, rfl⟩, List.chain'_singleton _⟩
  · rfl
  · show countDesc [("b", 1), ("a", 1)]
    exact List.chain'_cons.mpr ⟨Nat.le_refl 1, List.chain'_singleton _⟩
  · rfl
  · show countDesc ([] : List (String × Nat))
    exact List.chain'_nil
  · rfl
  · show countDesc [(some "to-read", 2)]
    exact List.chain'_singleton _
  · rfl

/-- Counterexample for C8 as stated: for `dbGenreTie`, the genre queries'
`ORDER BY count DESC` (with no secondary sort key, unlike the popular-books
query) admits the output `[("b", 1), ("a", 1)]`, whose tied rows are not in
alphabetical order. -/
theorem genre_author_tiebreak_not_alphabetical : ¬ C8Statement := by
  intro h
  have h2 := (h dbGenreTie statsGenreTie statsGenreTie_valid).2.1
  have h3 : List.Chain'
      (fun a b : GenreRow =>
        b.count < a.count ∨ (a.count = b.count ∧ strLt a.genre b.genre = true))
      [{ genre := "b", count := 1 }, { genre := "a", count := 1 }] := h2
  rcases (List.chain'_cons.mp h3).1 with hlt | ⟨-, hstr⟩
  · exact absurd hlt (by decide)
  · exact absurd hstr (by decide)

theorem topNBy_part {src : List String} {n : Nat} {out : List (String × Nat)}
    (h : topNBy src n out) :
    (∀ p ∈ out, p.1 ∈ src ∧ p.2 = src.countP (fun x => decide (x = p.1))) ∧
    out.length ≤ n ∧ countDesc out := by
  obtain ⟨full, hperm, hchain, htake⟩ := h
  refine ⟨?_, ?_, ?_⟩
  · intro p hp
    have hfull : p ∈ full := List.mem_of_mem_take (htake ▸ hp)
    have hgc : p ∈ groupCounts src := hperm.mem_iff.mp hfull
    obtain ⟨k, hk, hpk⟩ := List.mem_map.mp hgc
    have h1 : p.1 = k := by rw [← hpk]
    have h2 : p.2 = src.countP (fun x => decide (x = k)) := by rw [← hpk]
    rw [h1, h2]
    exact ⟨List.mem_dedup.mp hk, rfl⟩
  · rw [htake]
    exact List.length_take_le _ _
  · rw [htake]
    exact hchain.take _

theorem mem_genreValues_ne_empty {db : DB} {g : String} (h : g ∈ genreValues db) : g ≠ "" := by
  have := (List.mem_filter.mp h).2
  simpa using this

theorem mem_authorValues_ne_empty {db : DB} {a : String} (h : a ∈ authorValues db) : a ≠ "" := by
  have := (List.mem_filter.mp h).2
  simpa using this

/-- C8 amended: the popular-genres and popular-authors parts each hold the
grouped occurrence counts excluding null/empty values, limited to at most 10
entries, ordered by count descending; the relative order of entries with
equal counts is left unspecified by the queries (their `ORDER BY` has no
alphabetical tie-break — that secondary key exists only in the popular-books
query). -/
theorem stats_genres_authors_grouped_top10_count_desc
    (db : DB) (s : Stats) (hv : statsValid db s) :
    genresPart db s.popular_genres ∧ authorsPart db s.popular_authors := by
  obtain ⟨-, hg, ha, -, -, -⟩ := hv
  constructor
  · obtain ⟨hmem, hlen, hdesc⟩ := topNBy_part hg
    refine ⟨?_, ?_, hdesc⟩
    · intro r hr
      have h2 := hmem (r.genre, r.count)
        (List.mem_map_of_mem (fun r => (r.genre, r.count)) hr)
      exact ⟨mem_genreValues_ne_empty h2.1, h2.1, h2.2⟩
    · simpa using hlen
  · obtain ⟨hmem, hlen, hdesc⟩ := topNBy_part ha
    refine ⟨?_, ?_, hdesc⟩
    · intro r hr
      have h2 := hmem (r.author, r.book_count)
        (List.mem_map_of_mem (fun r => (r.author, r.book_count)) hr)
      exact ⟨mem_authorValues_ne_empty h2.1, h2.1, h2.2⟩
    · simpa using hlen

/-- Witness for the amended C8 at `dbGenreTie` and `statsGenreTie`. -/
theorem stats_genres_authors_grouped_top10_count_desc_witness :
    genresPart dbGenreTie statsGenreTie.popular_genres ∧
    authorsPart dbGenreTie statsGenreTie.popular_authors :=
  stats_genres_authors_grouped_top10_count_desc dbGenreTie statsGenreTie statsGenreTie_valid

/-! ## Claim C9 -/

/-- Counterexample for C9 as stated: the route embeds the (trimmed) query in
a `LIKE` pattern, where `%` and `_` act as wildcards.  For the query `"a%b"`
(trimmed length 3) the route returns the group `("axb", NULL, NULL)`, whose
title does not contain `"a%b"` as a literal substring and whose author is
NULL. -/
theorem search_substring_claim_fails_on_wildcards : ¬ C9Statement := by
  intro h
  have h2 := h dbLikeWildcard "a%b" none "a%b" none
      [{ title := "axb", author := none, genre := none, popularity := 1 }] 1 (by decide)
      { title := "axb", author := none, genre := none, popularity := 1 } (by decide)
  rcases h2 with hc | ⟨a, ha, -⟩
  · exact absurd hc (by decide)
  · exact Option.noConfusion ha

/-- C9 amended: every result group returned by the public search corresponds
to records whose title or author matches the trimmed query under SQL `LIKE`
semantics — a case-insensitive substring match in which `%` and `_` in the
query act as wildcards.  (For a wildcard-free query with no surrounding
whitespace this coincides with literal case-insensitive substring
containment.) -/
theorem search_results_match_like_pattern
    (db : DB) (q : String) (g : Option String) (qq : String) (gg : Option String)
    (results : List SearchRow) (count : Nat)
    (hok : searchRoute db (some q) g = .ok qq gg results count) :
    ∀ r ∈ results, rowLikeMatch r (jsTrim q) := by
  by_cases hlen : (jsTrim q).length < 2
  · rw [searchRoute, if_pos hlen] at hok
    exact absurd hok (by simp)
  · have hok2 : SearchResponse.ok q g (searchPublicBooks db (jsTrim q) g)
        (searchPublicBooks db (jsTrim q) g).length = .ok qq gg results count := by
      rw [← hok]
      simp [searchRoute, hlen]
    injection hok2 with h1 h2 h3 h4
    subst h3
    intro r hr
    unfold searchPublicBooks at hr
    obtain ⟨p, hp, hpr⟩ := List.mem_map.mp hr
    have hp3 := (List.mem_insertionSort searchOrder).mp (List.mem_of_mem_take hp)
    obtain ⟨k, hk, hpk⟩ := List.mem_map.mp hp3
    obtain ⟨b, hb, hbk⟩ := List.mem_map.mp (List.mem_dedup.mp hk)
    obtain ⟨hmatch, -⟩ :
        searchMatches (jsTrim q) b = true ∧ genreFilterMatches g b = true := by
      simpa using (List.mem_filter.mp hb).2
    have hor : likeContains (jsTrim q) b.title = true ∨
        (match b.author with
         | some a => likeContains (jsTrim q) a
         | none => false) = true := by
      simpa [searchMatches] using hmatch
    subst hpk
    subst hbk
    subst hpr
    rcases hor with hc | hc
    · exact Or.inl hc
    · cases ha : b.author with
      | none => rw [ha] at hc; exact absurd hc (by simp)
      | some a =>
        rw [ha] at hc
        exact Or.inr ⟨a, by simp [ha], by simpa using hc⟩

/-- Witness for the amended C9 at `dbLikeWildcard` and query `"a%b"`. -/
theorem search_results_match_like_pattern_witness :
    rowLikeMatch { title := "axb", author := none, genre := none, popularity := 1 }
      (jsTrim "a%b") :=
  search_results_match_like_pattern dbLikeWildcard "a%b" none "a%b" none
    [{ title := "axb", author := none, genre := none, popularity := 1 }] 1 (by decide)
    { title := "axb", author := none, genre := none, popularity := 1 } (by decide)

end ReadingList
